import Mathlib

/-!
Verification of the ClickHouse-schema Terraform provider's table resource
(`internal/provider/table_resource.go`): a shallow embedding of its data
model (TableResourceModel, ColumnModel, ColumnInfo), its pure helpers
(generateCreateTableSQL, getTableColumns, getTableOrderBy, validateColumns,
validateOrderBy, isMergeTreeFamily) and its lifecycle operations (Read,
Update, ImportState) over an explicit database-metadata state, followed by
theorems settling the specified properties.
-/

namespace ClickhouseSchema

/-- A Terraform framework string value (`types.String`): null, unknown, or a
known string value. -/
inductive TFString where
  | null
  | unknown
  | value (s : String)
deriving DecidableEq, Repr

/-- `types.String.IsNull`. -/
def TFString.isNull : TFString → Bool
  | .null => true
  | _ => false

/-- `types.String.IsUnknown`. -/
def TFString.isUnknown : TFString → Bool
  | .unknown => true
  | _ => false

/-- `types.String.ValueString`: the known value, or `""` for null/unknown. -/
def TFString.valueString : TFString → String
  | .value s => s
  | _ => ""

/-- `ColumnModel`: one declared column (name, type, optional comment). -/
structure ColumnModel where
  name : TFString
  type : TFString
  comment : TFString
deriving DecidableEq, Repr

/-- `TableResourceModel`: the declared (desired) table. -/
structure TableResourceModel where
  id : TFString
  name : TFString
  database : TFString
  engine : TFString
  columns : List ColumnModel
  orderBy : List TFString
deriving DecidableEq, Repr

/-- `ColumnInfo`: actual column information read from ClickHouse. -/
structure ColumnInfo where
  name : String
  type : String
  comment : String
deriving DecidableEq, Repr

/-- One row of `system.columns` as scanned by `getTableColumns`: name, type,
and a nullable comment (`sql.NullString`). -/
structure ColumnRow where
  name : String
  type : String
  comment : Option String
deriving DecidableEq, Repr

/-- The live metadata of one table, as exposed by `system.tables` and
`system.columns`: its engine, its column rows in position order (the
`ORDER BY position` of the columns query), and its serialized sorting key
(`sorting_key`, possibly NULL). -/
structure DBTable where
  engine : String
  rows : List ColumnRow
  sortingKey : Option String
deriving DecidableEq, Repr

/-- The live system: a finite table of (database, table name) -> metadata. -/
abbrev DB := List (String × String × DBTable)

/-- Single-row lookup of a table's metadata; `none` models `sql.ErrNoRows`. -/
def dbFind : DB → String → String → Option DBTable
  | [], _, _ => none
  | e :: rest, database, tableName =>
    if e.1 = database ∧ e.2.1 = tableName then some e.2.2
    else dbFind rest database tableName

/-- Character membership in the cutset `"()"` of `strings.Trim`. -/
def isParen (c : Char) : Bool := c = '(' || c = ')'

/-- Character-list test that the first list starts with the second
(`strings.HasPrefix` over the underlying characters). -/
def startsWithChars : List Char → List Char → Bool
  | _, [] => true
  | [], _ :: _ => false
  | c :: cs, p :: ps => c = p && startsWithChars cs ps

/-- `strings.HasPrefix(s, pat)`. -/
def strStartsWith (s pat : String) : Bool :=
  startsWithChars s.toList pat.toList

/-- `strings.HasSuffix(s, pat)`. -/
def strEndsWith (s pat : String) : Bool :=
  startsWithChars s.toList.reverse pat.toList.reverse

/-- Splitting helper: accumulates the current field (reversed) while walking
the character list; every separator closes a field, Go-`strings.Split` style
(so the empty string yields one empty field and a trailing separator yields a
trailing empty field). -/
def splitCharsAux (sep : Char) : List Char → List Char → List (List Char)
  | [], acc => [acc.reverse]
  | c :: cs, acc =>
    if c = sep then acc.reverse :: splitCharsAux sep cs []
    else splitCharsAux sep cs (c :: acc)

/-- `strings.Split(s, sep)` for a single-character separator. -/
def splitOnChar (sep : Char) (s : String) : List String :=
  (splitCharsAux sep s.toList []).map String.mk

/-- Drop characters satisfying `p` from both ends of a character list. -/
def trimBy (p : Char → Bool) (cs : List Char) : List Char :=
  ((cs.dropWhile p).reverse.dropWhile p).reverse

/-- `strings.Trim(s, "()")`: removes every leading and trailing parenthesis
character. -/
def trimParens (s : String) : String :=
  String.mk (trimBy isParen s.toList)

/-- `strings.TrimSpace(s)`: removes leading and trailing whitespace. -/
def trimSpace (s : String) : String :=
  String.mk (trimBy Char.isWhitespace s.toList)

/-- Joining with a separator, modelling the `if i > 0 { sql += sep }` loops
of `generateCreateTableSQL`. -/
def joinWith (sep : String) : List String → String
  | [] => ""
  | x :: xs => xs.foldl (fun acc y => acc ++ sep ++ y) x

/-- The per-column text emitted by `generateCreateTableSQL`: `name type`,
plus a ` COMMENT '<comment>'` clause only when the comment is neither null
nor unknown. -/
def columnSQL (col : ColumnModel) : String :=
  "    " ++ col.name.valueString ++ " " ++ col.type.valueString ++
    (if ¬col.comment.isNull ∧ ¬col.comment.isUnknown then
      " COMMENT '" ++ col.comment.valueString ++ "'"
    else "")

/-- `generateCreateTableSQL`: the CREATE TABLE statement text. -/
def generateCreateTableSQL (data : TableResourceModel) : String :=
  let sql := "CREATE TABLE " ++ data.database.valueString ++ "." ++
    data.name.valueString ++ " (\n"
  let sql := sql ++ joinWith ",\n" (data.columns.map columnSQL)
  let sql := sql ++ "\n) ENGINE = " ++ data.engine.valueString
  if data.orderBy.length > 0 then
    sql ++ "\nORDER BY (" ++
      joinWith ", " (data.orderBy.map TFString.valueString) ++ ")"
  else sql

/-- Lookup in the actual-columns mapping (`actualCols[name]`). -/
def mapLookup : List (String × ColumnInfo) → String → Option ColumnInfo
  | [], _ => none
  | p :: rest, k => if p.1 = k then some p.2 else mapLookup rest k

/-- Go-map insertion: overwrite the binding when the key is present,
otherwise add a new one. -/
def mapInsert (m : List (String × ColumnInfo)) (k : String) (v : ColumnInfo) :
    List (String × ColumnInfo) :=
  if (mapLookup m k).isSome then
    m.map (fun p => if p.1 = k then (k, v) else p)
  else m ++ [(k, v)]

/-- `getTableColumns`: scan the `system.columns` rows (already in position
order) into a map keyed by column name; a NULL comment scans as `""`
(`sql.NullString.String`). -/
def getTableColumns (rows : List ColumnRow) : List (String × ColumnInfo) :=
  rows.foldl
    (fun cols r =>
      mapInsert cols r.name ⟨r.name, r.type, r.comment.getD ""⟩) []

/-- `getTableOrderBy`'s parsing step: a NULL or empty sorting key gives `[]`;
otherwise trim parentheses from both ends, and if nothing remains give `[]`,
else split on commas and trim whitespace from each element. -/
def getTableOrderBy (sortingKey : Option String) : List String :=
  match sortingKey with
  | none => []
  | some s =>
    if s = "" then []
    else
      let orderBy := trimParens s
      if orderBy = "" then []
      else (splitOnChar ',' orderBy).map trimSpace

/-- The expected comment used by `validateColumns`: `""` when the declared
comment is null or unknown, the declared value otherwise. -/
def expectedCommentOf (c : TFString) : String :=
  if ¬c.isNull ∧ ¬c.isUnknown then c.valueString else ""

/-- The structured column-comparison failures of `validateColumns`. -/
inductive ColumnMismatch where
  | countMismatch (expected actual : Nat)
  | missingColumn (name : String)
  | typeMismatch (name expectedType actualType : String)
  | commentMismatch (name expectedComment actualComment : String)
deriving DecidableEq, Repr

/-- The per-column body of the `validateColumns` loop: existence by name,
then exact type equality, then exact comment equality. -/
def checkColumn (actualCols : List (String × ColumnInfo)) (expected : ColumnModel) :
    Option ColumnMismatch :=
  match mapLookup actualCols expected.name.valueString with
  | none => some (.missingColumn expected.name.valueString)
  | some actual =>
    if actual.type ≠ expected.type.valueString then
      some (.typeMismatch expected.name.valueString expected.type.valueString actual.type)
    else
      let expectedComment := expectedCommentOf expected.comment
      if actual.comment ≠ expectedComment then
        some (.commentMismatch expected.name.valueString expectedComment actual.comment)
      else none

/-- `validateColumns`: column-count equality first, then each expected
column in declared order, returning the first failure found. -/
def validateColumns (expectedCols : List ColumnModel)
    (actualCols : List (String × ColumnInfo)) : Option ColumnMismatch :=
  if expectedCols.length ≠ actualCols.length then
    some (.countMismatch expectedCols.length actualCols.length)
  else expectedCols.findSome? (checkColumn actualCols)

/-- The structured ORDER BY comparison failures of `validateOrderBy`. -/
inductive OrderByMismatch where
  | countMismatch (expected actual : Nat)
  | columnMismatch (position : Nat) (expected actual : String)
deriving DecidableEq, Repr

/-- The positional loop of `validateOrderBy` (reported positions are
1-based, as in the source's `i+1`). -/
def checkOrderCols : Nat → List String → List String → Option OrderByMismatch
  | _, [], _ => none
  | _, _ :: _, [] => none
  | i, e :: es, a :: rest =>
    if e ≠ a then some (.columnMismatch (i + 1) e a)
    else checkOrderCols (i + 1) es rest

/-- `validateOrderBy`: length equality, then positional string equality of
the declared (value-string) sequence against the actual sequence. -/
def validateOrderBy (expected : List TFString) (actual : List String) :
    Option OrderByMismatch :=
  let expectedStrs := expected.map TFString.valueString
  if expectedStrs.length ≠ actual.length then
    some (.countMismatch expectedStrs.length actual.length)
  else checkOrderCols 0 expectedStrs actual

/-- The fixed engine-family list of `isMergeTreeFamily`. -/
def mergeTreeEngines : List String :=
  ["MergeTree", "ReplacingMergeTree", "SummingMergeTree",
   "AggregatingMergeTree", "CollapsingMergeTree", "VersionedCollapsingMergeTree",
   "GraphiteMergeTree"]

/-- `isMergeTreeFamily`: the engine string starts with one of the fixed
family names. -/
def isMergeTreeFamily (engine : String) : Bool :=
  mergeTreeEngines.any (fun mt => strStartsWith engine mt)

/-- The observed counterpart of a desired table: engine string, columns
mapping, and parsed order key. -/
structure ActualTable where
  engine : String
  columns : List (String × ColumnInfo)
  orderKey : List String
deriving DecidableEq, Repr

/-- Outcome of the verify comparison assembled by `Read`: engine equality,
`validateColumns`, and `validateOrderBy` only for MergeTree-family
engines. -/
inductive CompareResult where
  | matched
  | engineMismatch (expected actual : String)
  | columnsMismatch (m : ColumnMismatch)
  | orderMismatch (m : OrderByMismatch)
deriving DecidableEq, Repr

/-- The comparison sequence performed by `Read` on an existing table. -/
def compare (data : TableResourceModel) (actual : ActualTable) : CompareResult :=
  if actual.engine ≠ data.engine.valueString then
    .engineMismatch data.engine.valueString actual.engine
  else
    match validateColumns data.columns actual.columns with
    | some m => .columnsMismatch m
    | none =>
      if isMergeTreeFamily actual.engine then
        match validateOrderBy data.orderBy actual.orderKey with
        | some m => .orderMismatch m
        | none => .matched
      else .matched

/-- Result of the `Read` (verify) operation. -/
inductive ReadResult where
  | invalidIdentity (id : String)
  | gone
  | engineMismatch (expected actual : String)
  | schemaMismatch (m : ColumnMismatch)
  | orderMismatch (m : OrderByMismatch)
  | ok (data : TableResourceModel)
deriving DecidableEq, Repr

/-- `Read`: split the stored id on `.` (rejecting anything but exactly two
parts before any query), look the table up (absence is the gone outcome),
check the engine, the columns, and — only for MergeTree-family engines —
the ORDER BY; on success write the prior state back unchanged. -/
def readTable (dbase : DB) (data : TableResourceModel) : ReadResult :=
  match splitOnChar '.' data.id.valueString with
  | [database, tableName] =>
    match dbFind dbase database tableName with
    | none => .gone
    | some t =>
      if t.engine ≠ data.engine.valueString then
        .engineMismatch data.engine.valueString t.engine
      else
        match validateColumns data.columns (getTableColumns t.rows) with
        | some m => .schemaMismatch m
        | none =>
          if isMergeTreeFamily t.engine then
            match validateOrderBy data.orderBy (getTableOrderBy t.sortingKey) with
            | some m => .orderMismatch m
            | none => .ok data
          else .ok data
  | _ => .invalidIdentity data.id.valueString

/-- Result of the `Update` operation: the diagnostic added. -/
inductive UpdateOutcome where
  | errorAdded (summary detail : String)
deriving DecidableEq, Repr

/-- `Update`: unconditionally adds the not-implemented error; the second
component is the list of SQL statements executed (none). -/
def updateTable (_data : TableResourceModel) : UpdateOutcome × List String :=
  (.errorAdded "Update is not implemented" "Update is not implemented", [])

/-- `Create`'s pure core: default the database, emit the CREATE statement,
and set the id; the second component lists the SQL executed. -/
def createTable (data : TableResourceModel) : TableResourceModel × List String :=
  let data :=
    if data.database.isNull || data.database.isUnknown then
      { data with database := TFString.value "default" }
    else data
  let createSQL := generateCreateTableSQL data
  ({ data with
      id := TFString.value (data.database.valueString ++ "." ++ data.name.valueString) },
    [createSQL])

/-- `Delete`'s pure core: the DROP statement executed. -/
def deleteTable (data : TableResourceModel) : List String :=
  ["DROP TABLE IF EXISTS " ++ data.database.valueString ++ "." ++
    data.name.valueString]

/-- Result of the `ImportState` operation. -/
inductive ImportResult where
  | invalidIdentity
  | notFound (database tableName : String)
  | ok (data : TableResourceModel)
deriving DecidableEq, Repr

/-- `ImportState`: split the import id on `.` into exactly two non-empty
parts, look the table up (absence is a hard NotFound error), then rebuild
the model: the columns come from ranging over the Go map returned by
`getTableColumns` — `iter` is the map-iteration order, which Go leaves
unspecified (any enumeration of the entries) — and the order key is parsed
only for MergeTree-family engines. -/
def importState (dbase : DB)
    (iter : List (String × ColumnInfo) → List (String × ColumnInfo))
    (reqID : String) : ImportResult :=
  match splitOnChar '.' reqID with
  | [database, tableName] =>
    if database = "" ∨ tableName = "" then .invalidIdentity
    else
      match dbFind dbase database tableName with
      | none => .notFound database tableName
      | some t =>
        let columnModels := (iter (getTableColumns t.rows)).map (fun p =>
          { name := TFString.value p.2.name
            type := TFString.value p.2.type
            comment :=
              if p.2.comment ≠ "" then TFString.value p.2.comment
              else TFString.null : ColumnModel })
        let orderBy :=
          if isMergeTreeFamily t.engine then
            (getTableOrderBy t.sortingKey).map TFString.value
          else []
        .ok { id := TFString.value reqID
              name := TFString.value tableName
              database := TFString.value database
              engine := TFString.value t.engine
              columns := columnModels
              orderBy := orderBy }
  | _ => .invalidIdentity

/-- The column names an import result carries, when it succeeded. -/
def ImportResult.columnNames : ImportResult → Option (List String)
  | .ok d => some (d.columns.map (fun c => c.name.valueString))
  | _ => none

/-- The actual-side `ColumnInfo` mirroring one declared column: same name
and type strings, with an absent (null/unknown) declared comment mirrored
to the empty actual comment. -/
def mirrorInfo (c : ColumnModel) : ColumnInfo :=
  ⟨c.name.valueString, c.type.valueString, expectedCommentOf c.comment⟩

/-- The actual-columns mapping mirroring a declared column list. -/
def mirrorColumns (cols : List ColumnModel) : List (String × ColumnInfo) :=
  cols.map (fun c => (c.name.valueString, mirrorInfo c))

/-- The `ActualTable` built to exactly mirror a desired table. -/
def actualFrom (d : TableResourceModel) : ActualTable :=
  { engine := d.engine.valueString
    columns := mirrorColumns d.columns
    orderKey := d.orderBy.map TFString.valueString }

/-- The claimed (spec-worded) parse of the sorting key: strip ONE enclosing
parenthesis pair if present — rather than the source's trim of every
leading/trailing parenthesis — then split on commas and trim whitespace.
Stated only to be compared against `getTableOrderBy`. -/
def stripOnePair (s : String) : String :=
  if strStartsWith s "(" && strEndsWith s ")" then
    String.mk (s.toList.drop 1).dropLast
  else s

/-- The sorting-key parse as the claim words it (one enclosing pair
stripped); compared against the source's `getTableOrderBy`. -/
def getTableOrderBySpec (sortingKey : Option String) : List String :=
  match sortingKey with
  | none => []
  | some s =>
    if s = "" then []
    else
      let orderBy := stripOnePair s
      if orderBy = "" then []
      else (splitOnChar ',' orderBy).map trimSpace

/-- The events table of the end-to-end example: two columns, the first with
comment `pk`, the second with no comment, ordered by `id`. -/
def exTableC3 : TableResourceModel :=
  { id := TFString.null
    name := TFString.value "events"
    database := TFString.value "default"
    engine := TFString.value "MergeTree"
    columns :=
      [⟨TFString.value "id", TFString.value "UInt64", TFString.value "pk"⟩,
       ⟨TFString.value "ts", TFString.value "DateTime", TFString.null⟩]
    orderBy := [TFString.value "id"] }

/-- The events table again, as the concrete instance for the mirror
round-trip. -/
def exTableC1 : TableResourceModel :=
  { id := TFString.null
    name := TFString.value "events"
    database := TFString.value "default"
    engine := TFString.value "MergeTree"
    columns :=
      [⟨TFString.value "id", TFString.value "UInt64", TFString.value "pk"⟩,
       ⟨TFString.value "ts", TFString.value "DateTime", TFString.null⟩]
    orderBy := [TFString.value "id"] }

/-- A one-column declared list (name `id`). -/
def exColsC4 : List ColumnModel :=
  [⟨TFString.value "id", TFString.value "UInt64", TFString.null⟩]

/-- A two-column actual mapping (names `id`, `ts`): a strict superset of
`exColsC4`'s names. -/
def exMapC4 : List (String × ColumnInfo) :=
  [("id", ⟨"id", "UInt64", ""⟩), ("ts", ⟨"ts", "DateTime", ""⟩)]

/-- A MergeTree table declared with order key `[id, ts]`. -/
def exTableC6 : TableResourceModel :=
  { id := TFString.null
    name := TFString.value "t"
    database := TFString.value "default"
    engine := TFString.value "MergeTree"
    columns := [⟨TFString.value "id", TFString.value "UInt64", TFString.null⟩]
    orderBy := [TFString.value "id", TFString.value "ts"] }

/-- The same table with the non-ordered-storage engine `Log`. -/
def exTableC6b : TableResourceModel :=
  { id := TFString.null
    name := TFString.value "t"
    database := TFString.value "default"
    engine := TFString.value "Log"
    columns := [⟨TFString.value "id", TFString.value "UInt64", TFString.null⟩]
    orderBy := [TFString.value "id", TFString.value "ts"] }

/-- A stored state whose id has a trailing dot (empty table-name part). -/
def exTableC7 : TableResourceModel :=
  { id := TFString.value "db."
    name := TFString.null
    database := TFString.null
    engine := TFString.null
    columns := []
    orderBy := [] }

/-- A stored state whose id splits into three parts. -/
def exTableC7w : TableResourceModel :=
  { id := TFString.value "a.b.c"
    name := TFString.null
    database := TFString.null
    engine := TFString.null
    columns := []
    orderBy := [] }

/-- A stored state for a well-formed identity `default.events`. -/
def exTableC8 : TableResourceModel :=
  { id := TFString.value "default.events"
    name := TFString.null
    database := TFString.null
    engine := TFString.null
    columns := []
    orderBy := [] }

/-- Live metadata of a two-column MergeTree table, columns `id` then `ts`
in position order, sorting key `(id, ts)`. -/
def exDBTableC2 : DBTable :=
  ⟨"MergeTree", [⟨"id", "UInt64", none⟩, ⟨"ts", "DateTime", none⟩],
    some "(id, ts)"⟩

/-- A live system containing only `default.events` with `exDBTableC2`. -/
def exDBC2 : DB := [("default", "events", exDBTableC2)]

/-- A live system with a one-column `Log` table `default.events`. -/
def exDBC10 : DB :=
  [("default", "events", ⟨"Log", [⟨"id", "UInt64", none⟩], none⟩)]

/-- A stored state exactly matching `exDBC10`'s table. -/
def exTableC10 : TableResourceModel :=
  { id := TFString.value "default.events"
    name := TFString.value "events"
    database := TFString.value "default"
    engine := TFString.value "Log"
    columns := [⟨TFString.value "id", TFString.value "UInt64", TFString.null⟩]
    orderBy := [] }

/-! ## Helper lemmas -/

/-- With pairwise-distinct declared names, looking a declared column's name
up in the mirrored mapping returns exactly its mirrored info. -/
theorem mapLookup_mirror {cols : List ColumnModel}
    (hnd : (cols.map (fun c => c.name.valueString)).Nodup)
    {c : ColumnModel} (hc : c ∈ cols) :
    mapLookup (mirrorColumns cols) c.name.valueString = some (mirrorInfo c) := by
  induction cols with
  | nil => cases hc
  | cons c0 rest ih =>
    simp only [List.map_cons, List.nodup_cons] at hnd
    cases hc with
    | head => simp [mirrorColumns, mapLookup]
    | tail b hc =>
      have hne : c0.name.valueString ≠ c.name.valueString := by
        intro h
        exact hnd.1 (h ▸ List.mem_map_of_mem (fun c => c.name.valueString) hc)
      simp only [mirrorColumns, List.map_cons, mapLookup]
      rw [if_neg hne]
      exact ih hnd.2 hc

/-- Each declared column passes `checkColumn` against the mirrored
mapping. -/
theorem checkColumn_mirror {cols : List ColumnModel}
    (hnd : (cols.map (fun c => c.name.valueString)).Nodup)
    {c : ColumnModel} (hc : c ∈ cols) :
    checkColumn (mirrorColumns cols) c = none := by
  unfold checkColumn
  rw [mapLookup_mirror hnd hc]
  simp [mirrorInfo]

/-- `validateColumns` accepts the mirrored mapping of a duplicate-free
declared column list. -/
theorem validateColumns_mirror {cols : List ColumnModel}
    (hnd : (cols.map (fun c => c.name.valueString)).Nodup) :
    validateColumns cols (mirrorColumns cols) = none := by
  have hlen : (mirrorColumns cols).length = cols.length :=
    List.length_map _ _
  unfold validateColumns
  rw [hlen, if_neg (by simp)]
  rw [List.findSome?_eq_none_iff]
  exact fun c hc => checkColumn_mirror hnd hc

/-- The positional loop accepts a list against itself. -/
theorem checkOrderCols_self (l : List String) :
    ∀ i, checkOrderCols i l l = none := by
  induction l with
  | nil => intro i; rfl
  | cons x xs ih =>
    intro i
    unfold checkOrderCols
    rw [if_neg (by simp)]
    exact ih (i + 1)

/-- If the positional loop accepts two lists of equal length, they are
equal. -/
theorem checkOrderCols_eq {es : List String} :
    ∀ {rest : List String} {i : Nat}, checkOrderCols i es rest = none →
      es.length = rest.length → es = rest := by
  induction es with
  | nil =>
    intro rest i _ hlen
    cases rest with
    | nil => rfl
    | cons a t => simp at hlen
  | cons e es ih =>
    intro rest i h hlen
    cases rest with
    | nil => simp at hlen
    | cons a t =>
      unfold checkOrderCols at h
      by_cases hea : e = a
      · subst hea
        rw [if_neg (by simp)] at h
        simp only [List.length_cons, Nat.add_right_cancel_iff] at hlen
        rw [ih h hlen]
      · rw [if_pos hea] at h
        cases h

/-- `validateOrderBy` accepts exactly when the declared value strings equal
the actual sequence. -/
theorem validateOrderBy_none_iff (e : List TFString) (a : List String) :
    validateOrderBy e a = none ↔ e.map TFString.valueString = a := by
  unfold validateOrderBy
  by_cases hlen : (e.map TFString.valueString).length = a.length
  · rw [if_neg (by simp [hlen])]
    constructor
    · intro h; exact checkOrderCols_eq h hlen
    · intro h; rw [h]; exact checkOrderCols_self a 0
  · rw [if_pos hlen]
    constructor
    · intro h; cases h
    · intro h; exact absurd (by rw [h]) hlen

/-! ## Claim theorems -/

/-- C1: for every desired table with pairwise-distinct column names,
comparing it against the actual table built to exactly mirror it (same
engine string, same columns with an absent desired comment mirrored to an
empty actual comment, same order key) reports no mismatch: the verify
comparison — engine equality, `validateColumns`, and, for MergeTree-family
engines, `validateOrderBy` — yields match. -/
theorem claim_C1_mirror_compare_matched (d : TableResourceModel)
    (hnd : (d.columns.map (fun c => c.name.valueString)).Nodup) :
    compare d (actualFrom d) = CompareResult.matched := by
  unfold compare actualFrom
  rw [if_neg (by simp)]
  simp only [validateColumns_mirror hnd]
  by_cases hf : isMergeTreeFamily d.engine.valueString
  · simp only [hf, if_true, (validateOrderBy_none_iff _ _).2 rfl]
  · simp [hf]

/-- Witness for C1: the concrete events table. -/
theorem claim_C1_witness :
    (exTableC1.columns.map (fun c => c.name.valueString)).Nodup ∧
    compare exTableC1 (actualFrom exTableC1) = CompareResult.matched :=
  ⟨by decide, claim_C1_mirror_compare_matched exTableC1 (by decide)⟩

/-- C3: `generateCreateTableSQL` on the example events table produces
exactly the claimed CREATE statement, with a COMMENT clause for `id` and
none for `ts` (whose comment is absent). -/
theorem claim_C3_generate_create_sql :
    generateCreateTableSQL exTableC3 =
      "CREATE TABLE default.events (\n    id UInt64 COMMENT 'pk',\n    ts DateTime\n) ENGINE = MergeTree\nORDER BY (id)" := by
  decide

/-- C5 counterexample: on the sorting key `((id))` the source's parse
(`getTableOrderBy`, which trims every leading/trailing parenthesis) gives
`[id]`, while the claim's one-enclosing-pair strip gives `[(id)]`. -/
theorem claim_C5_counterexample :
    getTableOrderBy (some "((id))") = ["id"] ∧
    getTableOrderBySpec (some "((id))") = ["(id)"] ∧
    (["id"] : List String) ≠ ["(id)"] :=
  ⟨by decide, by decide, by decide⟩

/-- C5 amended: the parse strips ALL leading and trailing parenthesis
characters (hence one enclosing pair when that is all there is), splits the
remainder on commas and trims whitespace per element; an absent (NULL) or
empty sorting key — or one that is only parentheses — yields the empty
sequence, and `(id, ts)` parses to `[id, ts]`. -/
theorem claim_C5_amended_parse :
    (∀ sk : Option String,
      getTableOrderBy sk =
        match sk with
        | none => []
        | some s =>
          if trimParens s = "" then []
          else (splitOnChar ',' (trimParens s)).map trimSpace) ∧
    getTableOrderBy (some "(id, ts)") = ["id", "ts"] ∧
    getTableOrderBy none = [] ∧
    getTableOrderBy (some "") = [] := by
  refine ⟨?_, by decide, rfl, by decide⟩
  intro sk
  match sk with
  | none => rfl
  | some s =>
    by_cases hs : s = ""
    · subst hs; decide
    · simp only [getTableOrderBy, hs, if_false]

/-- C9: the Update operation always adds the not-implemented error and
executes no SQL statement: a changed desired state is always rejected,
never applied. -/
theorem claim_C9_update_unsupported (data : TableResourceModel) :
    updateTable data =
      (UpdateOutcome.errorAdded "Update is not implemented" "Update is not implemented",
        ([] : List String)) := rfl

/-- C4: whenever the declared and actual column name sets stand in a strict
subset or strict superset relation (with unique names on each side, as the
data model guarantees), `validateColumns` reports a mismatch and never
match; in particular, match requires the actual column count to equal the
declared column count. -/
theorem claim_C4_strict_subset_mismatch (cols : List ColumnModel)
    (m : List (String × ColumnInfo))
    (hd : (cols.map (fun c => c.name.valueString)).Nodup)
    (hm : (m.map Prod.fst).Nodup) :
    ((cols.map (fun c => c.name.valueString)).toFinset ⊂ (m.map Prod.fst).toFinset ∨
        (m.map Prod.fst).toFinset ⊂ (cols.map (fun c => c.name.valueString)).toFinset →
      validateColumns cols m ≠ none) ∧
    (validateColumns cols m = none → cols.length = m.length) := by
  have hcd : (cols.map (fun c => c.name.valueString)).toFinset.card = cols.length := by
    rw [List.toFinset_card_of_nodup hd, List.length_map]
  have hcm : (m.map Prod.fst).toFinset.card = m.length := by
    rw [List.toFinset_card_of_nodup hm, List.length_map]
  constructor
  · intro hss
    have hlen : cols.length ≠ m.length := by
      rcases hss with h | h
      · have := Finset.card_lt_card h; omega
      · have := Finset.card_lt_card h; omega
    simp [validateColumns, hlen]
  · intro h
    by_contra hne
    simp [validateColumns, hne] at h

/-- Witness for C4: one declared column `id` against the actual columns
`{id, ts}` (a strict superset) is rejected. -/
theorem claim_C4_witness : validateColumns exColsC4 exMapC4 ≠ none :=
  (claim_C4_strict_subset_mismatch exColsC4 exMapC4 (by decide) (by decide)).1
    (Or.inl (by decide))

/-- C6: for a desired table (distinct column names) whose mirrored actual
table carries an order key that is a permutation of, but not equal to, the
desired one: if the engine is in the MergeTree family the comparison
reports an order-key mismatch (positional equality is required), and if it
is not, the order-key comparison is skipped entirely and the comparison
yields match. -/
theorem claim_C6_orderkey_permutation (d : TableResourceModel)
    (actualOK : List String)
    (hnd : (d.columns.map (fun c => c.name.valueString)).Nodup)
    (_hperm : List.Perm actualOK (d.orderBy.map TFString.valueString))
    (hne : actualOK ≠ d.orderBy.map TFString.valueString) :
    (isMergeTreeFamily d.engine.valueString = true →
      ∃ mm, compare d { actualFrom d with orderKey := actualOK } =
        CompareResult.orderMismatch mm) ∧
    (isMergeTreeFamily d.engine.valueString = false →
      compare d { actualFrom d with orderKey := actualOK } =
        CompareResult.matched) := by
  constructor
  · intro hf
    have hvo : validateOrderBy d.orderBy actualOK ≠ none := by
      rw [Ne, validateOrderBy_none_iff]
      exact fun hh => hne hh.symm
    rcases Option.ne_none_iff_exists'.1 hvo with ⟨mm, hmm⟩
    refine ⟨mm, ?_⟩
    unfold compare actualFrom
    rw [if_neg (by simp)]
    simp only [validateColumns_mirror hnd, hf, if_true, hmm]
  · intro hf
    unfold compare actualFrom
    rw [if_neg (by simp)]
    simp [validateColumns_mirror hnd, hf]

/-- Witness for C6: order key `[id, ts]` against actual `[ts, id]` is an
order-key mismatch under engine `MergeTree` and a match under `Log`. -/
theorem claim_C6_witness :
    (∃ mm, compare exTableC6 { actualFrom exTableC6 with orderKey := ["ts", "id"] } =
      CompareResult.orderMismatch mm) ∧
    compare exTableC6b { actualFrom exTableC6b with orderKey := ["ts", "id"] } =
      CompareResult.matched :=
  ⟨(claim_C6_orderkey_permutation exTableC6 ["ts", "id"]
      (by decide) (by decide) (by decide)).1 (by decide),
   (claim_C6_orderkey_permutation exTableC6b ["ts", "id"]
      (by decide) (by decide) (by decide)).2 (by decide)⟩

/-- C7 counterexample: on the identity `db.` (empty table-name part) verify
does NOT fail with an invalid-identity error — it proceeds to the existence
lookup and, in an empty system, reports the gone outcome. -/
theorem claim_C7_counterexample :
    readTable [] exTableC7 = ReadResult.gone ∧
    ∀ s, readTable [] exTableC7 ≠ ReadResult.invalidIdentity s := by
  have h1 : readTable [] exTableC7 = ReadResult.gone := by decide
  refine ⟨h1, fun s h => ?_⟩
  rw [h1] at h
  cases h

/-- C7 amended: verify rejects an identity locally (invalid identity, with
no dependence on the live system, hence before any I/O) exactly when its
dot-split does not have two parts — no dot, or more than one dot; an
identity with exactly two parts proceeds past the parse even when a part is
empty, and only import additionally rejects an empty database or name
part. -/
theorem claim_C7_amended_identity (id : String) (dbase : DB)
    (data : TableResourceModel)
    (iter : List (String × ColumnInfo) → List (String × ColumnInfo))
    (hid : data.id = TFString.value id) :
    ((splitOnChar '.' id).length ≠ 2 →
      readTable dbase data = ReadResult.invalidIdentity id) ∧
    (∀ a b, splitOnChar '.' id = [a, b] →
      ∀ s, readTable dbase data ≠ ReadResult.invalidIdentity s) ∧
    (∀ a b, splitOnChar '.' id = [a, b] → a = "" ∨ b = "" →
      importState dbase iter id = ImportResult.invalidIdentity) := by
  refine ⟨?_, ?_, ?_⟩
  · intro hlen
    unfold readTable
    rw [hid]
    simp only [TFString.valueString]
    rcases hsp : splitOnChar '.' id with _ | ⟨a, _ | ⟨b, _ | ⟨c, tl⟩⟩⟩
    · rfl
    · rfl
    · rw [hsp] at hlen; simp at hlen
    · rfl
  · intro a b hsp s h
    unfold readTable at h
    rw [hid] at h
    simp only [TFString.valueString] at h
    rw [hsp] at h
    repeat' split at h
    all_goals cases h
  · intro a b hsp hab
    unfold importState
    rw [hsp]
    simp [hab]

/-- Witness for C7 amended: the three-part identity `a.b.c` is rejected
locally by verify. -/
theorem claim_C7_amended_witness :
    readTable [] exTableC7w = ReadResult.invalidIdentity "a.b.c" :=
  (claim_C7_amended_identity "a.b.c" [] exTableC7w (fun m => m) rfl).1 (by decide)

/-- C8: for a well-formed two-part identity naming a table absent from the
live system, verify reports the gone outcome (not an error), while import
of the same identity fails with the not-found error. -/
theorem claim_C8_absent_gone_notfound (dbase : DB) (data : TableResourceModel)
    (iter : List (String × ColumnInfo) → List (String × ColumnInfo))
    (reqID database tableName : String)
    (hsplit : splitOnChar '.' reqID = [database, tableName])
    (hdb : database ≠ "") (htn : tableName ≠ "")
    (hid : data.id = TFString.value reqID)
    (habs : dbFind dbase database tableName = none) :
    readTable dbase data = ReadResult.gone ∧
    importState dbase iter reqID = ImportResult.notFound database tableName := by
  constructor
  · unfold readTable
    rw [hid]
    simp only [TFString.valueString]
    rw [hsplit]
    simp only [habs]
  · unfold importState
    rw [hsplit]
    simp only [habs]
    rw [if_neg (by tauto)]

/-- Witness for C8: the absent identity `default.events` in the empty
system. -/
theorem claim_C8_witness :
    readTable [] exTableC8 = ReadResult.gone ∧
    importState [] (fun m => m) "default.events" =
      ImportResult.notFound "default" "events" :=
  claim_C8_absent_gone_notfound [] exTableC8 (fun m => m)
    "default.events" "default" "events" (by decide) (by decide) (by decide)
    rfl rfl

/-- C10: whenever verify succeeds, the state written back is exactly the
prior state — no field is refreshed from the observed database values. -/
theorem claim_C10_read_frame (dbase : DB) (data d' : TableResourceModel)
    (h : readTable dbase data = ReadResult.ok d') : d' = data := by
  unfold readTable at h
  repeat' split at h
  all_goals cases h <;> rfl

/-- Witness for C10: a successful verify of `default.events` (whose declared
comment is absent while the observed comment is empty) keeps the prior
state unchanged. -/
theorem claim_C10_witness :
    readTable exDBC10 exTableC10 = ReadResult.ok exTableC10 ∧
    exTableC10 = exTableC10 :=
  ⟨by decide, claim_C10_read_frame exDBC10 exTableC10 exTableC10 (by decide)⟩

/-- C2: import rebuilds the column sequence by ranging over the Go map
returned by `getTableColumns`, whose iteration order is unspecified — so
the imported column order is NOT the database position order: with the
rows `[id, ts]` (position order) and the reversed (equally valid) map
iteration, import returns the names `[ts, id]`. -/
theorem claim_C2_import_order_bug :
    (∀ m : List (String × ColumnInfo), List.Perm m.reverse m) ∧
    (importState exDBC2 List.reverse "default.events").columnNames =
      some ["ts", "id"] ∧
    exDBTableC2.rows.map ColumnRow.name = ["id", "ts"] ∧
    (some (["ts", "id"] : List String) ≠ some ["id", "ts"]) :=
  ⟨fun m => List.reverse_perm m, by decide, by decide, by decide⟩

end ClickhouseSchema
